import Mathlib

/-!
Verification development for the agent-based epidemic simulator in
`haoai.py`.  The Python source is shallowly embedded: the random source
(`random.random()`) is modelled as an explicit stream `u : ℕ → ℚ` of
uniform draws together with a cursor, and `random.sample` as a separate
selection oracle `samp`; Python object identity for `Disease` objects is
modelled by an `id` field, with the simulation's disease roster holding
the authoritative (mutable) record for each id.  Machine floats of the
source are modelled as exact rationals.  All operations are executable.
-/

set_option maxRecDepth 10000

set_option allowUnsafeReducibility true
attribute [semireducible] Rat.mul Rat.div Rat.add Rat.sub Rat.inv

/-- The random source: `u` is the stream of `random()` draws in `[0,1)`,
`samp i k` is the index selection made by the `i`-th call position of
`random.sample(agents, k)`, and `k` is the draw cursor. -/
structure Rng where
  u : ℕ → ℚ
  samp : ℕ → ℕ → List ℕ
  k : ℕ

/-- `rolldie(p)`: returns `random() <= p`, consuming one draw. -/
def rolldie (p : ℚ) (rng : Rng) : Bool × Rng :=
  (decide (rng.u rng.k ≤ p), { rng with k := rng.k + 1 })

/-- The `Disease` record of `haoai.py` (lines 32-47).  `id` models Python
object identity (two `Disease` values denote the same Python object
exactly when their ids agree). -/
structure Disease where
  id : ℕ
  name : String
  t : ℚ
  E : ℤ
  I : ℤ
  Q : ℤ
  r : ℚ
deriving DecidableEq

/-- `Disease.__init__`: stores the parameters unchanged and sets `Q = 0`.
No validation of any kind is performed by the source. -/
def Disease.init (id : ℕ) (name : String) (t : ℚ) (E : ℤ) (I : ℤ) (r : ℚ) : Disease :=
  { id := id, name := name, t := t, E := E, I := I, Q := 0, r := r }

/-- `Disease.quarantine(Q)` (line 45-47): `self.Q = min(Q, self.I)`. -/
def Disease.quarantine (dis : Disease) (q : ℤ) : Disease :=
  { dis with Q := min q dis.I }

/-- The `Agent` record of `haoai.py` (lines 52-61).  The four per-disease
lists are indexed in parallel by the agent's private disease index. -/
structure Agent where
  g : ℕ
  cp : List ℚ
  s : ℚ
  q : ℚ
  Q : List Bool
  c : List ℤ
  D : List ℕ
  v : List ℚ
deriving DecidableEq

/-- `Agent.__init__`: stores traits unchanged, all per-disease lists empty.
No validation of any kind is performed by the source. -/
def Agent.init (g : ℕ) (cp : List ℚ) (s : ℚ) (q : ℚ) : Agent :=
  { g := g, cp := cp, s := s, q := q, Q := [], c := [], D := [], v := [] }

/-- `Agent.index(disease)` (lines 69-80): position of the disease in the
agent's private `D` list; a disease never seen is appended with
susceptible counter `-1`, no quarantine, vaccine factor `1.0`. -/
def Agent.index (a : Agent) (dis : Disease) : Agent × ℕ :=
  match a.D.findIdx? (fun x => x == dis.id) with
  | some i => (a, i)
  | none =>
      ({ a with D := a.D ++ [dis.id], Q := a.Q ++ [false],
                c := a.c ++ [-1], v := a.v ++ [1] }, a.D.length)

/-- Abbreviation for the per-agent `(E, I, Q, S)` truth vector. -/
abbrev S4 := Bool × Bool × Bool × Bool

/-- `Agent.state(disease)` (lines 83-102), the classification query.  In
the final branch `0 < c[d]` necessarily holds (the three earlier guards
exclude every other case), so the Python fall-through `None` is
unreachable and the last `elif` is a plain `else` here.  `max(self.Q)`
on a list of booleans is true exactly when some entry is true. -/
def Agent.state (a : Agent) (dis : Disease) : Agent × S4 :=
  let p := a.index dis
  let a1 := p.1
  let d := p.2
  let cd := a1.c.getD d 0
  if cd = 0 then (a1, (false, false, false, false))
  else if cd < 0 then (a1, (false, false, false, true))
  else if dis.I < cd then (a1, (true, false, false, false))
  else if a1.Q.any (fun b => b) then (a1, (false, false, true, false))
  else (a1, (false, true, false, false))

/-- `Agent.vaccinate(disease, v)` (lines 106-109). -/
def Agent.vaccinate (a : Agent) (dis : Disease) (vv : ℚ) : Agent :=
  let p := a.index dis
  { p.1 with v := p.1.v.set p.2 vv }

/-- The Bernoulli parameter of line 122:
`self.s * self.v[d] * self.cp[other.g] * disease.t`, where `a` is the
target (`self`) and `other` the source of the infection. -/
def Agent.infectProb (a : Agent) (other : Agent) (dis : Disease) (d : ℕ) : ℚ :=
  a.s * a.v.getD d 0 * a.cp.getD other.g 0 * dis.t

/-- `Agent.infect(other, disease)` (lines 119-125).  The die is only
rolled when the target is susceptible (Python short-circuit `and`). -/
def Agent.infect (a : Agent) (other : Agent) (dis : Disease) (rng : Rng) :
    Agent × Bool × Rng :=
  let p := a.index dis
  let a1 := p.1
  let d := p.2
  if a1.c.getD d 0 < 0 then
    let rr := rolldie (a1.infectProb other dis d) rng
    if rr.1 then ({ a1 with c := a1.c.set d (dis.E + dis.I + 1) }, true, rr.2)
    else (a1, false, rr.2)
  else (a1, false, rng)

/-- The last two branches of `Agent.update` (lines 153-164): the
in-quarantine decrement with expiry test, and the ordinary decrement.
Factored out because the Python quarantine-entry guard falls through to
these when its compliance roll fails. -/
def Agent.updateTail (a : Agent) (d : ℕ) (dis : Disease) (rng : Rng) :
    Agent × Bool × Rng :=
  if a.Q.getD d false then
    let a2 := { a with c := a.c.set d (a.c.getD d 0 - 1) }
    if a2.c.getD d 0 = dis.I - dis.Q then
      ({ a2 with Q := a2.Q.set d false }, true, rng)
    else (a2, false, rng)
  else ({ a with c := a.c.set d (a.c.getD d 0 - 1) }, true, rng)

/-- `Agent.update(disease)` (lines 135-165), the daily transition.  The
guard of the quarantine-entry branch is `c[d] == I+1 and Q > 0 and
rolldie(q)`: the die is rolled only when the first two conjuncts hold,
and on a failed roll control falls through to the remaining branches. -/
def Agent.update (a : Agent) (dis : Disease) (rng : Rng) : Agent × Bool × Rng :=
  let p := a.index dis
  let a1 := p.1
  let d := p.2
  let cd := a1.c.getD d 0
  if cd ≤ 0 then (a1, false, rng)
  else if cd = 1 then
    let rr := rolldie dis.r rng
    if rr.1 = false then ({ a1 with c := a1.c.set d (-1) }, false, rr.2)
    else ({ a1 with c := a1.c.set d 0 }, false, rr.2)
  else if cd = dis.I + 1 ∧ 0 < dis.Q then
    let rr := rolldie a1.q rng
    if rr.1 then
      ({ a1 with c := a1.c.set d (cd - 1), Q := a1.Q.set d true }, false, rr.2)
    else a1.updateTail d dis rr.2
  else a1.updateTail d dis rng

/-- Scheduled events (`haoai.py` lines 304-316): each carries its absolute
trigger day; diseases are referenced by id (Python stores the object
reference; the roster entry with that id is the same heap object). -/
inductive Event where
  | quarantine (day : ℕ) (disId : ℕ) (q : ℤ)
  | vaccinate (day : ℕ) (disId : ℕ) (coverage : ℚ) (v : ℚ)
  | seed (day : ℕ) (disId : ℕ) (n : ℕ)
deriving DecidableEq

/-- Trigger day of an event (`event[0]`). -/
def Event.day : Event → ℕ
  | .quarantine d _ _ => d
  | .vaccinate d _ _ _ => d
  | .seed d _ _ => d

/-- The `Simulation` record of `haoai.py` (lines 169-177). -/
structure Simulation where
  steps : ℕ
  m : ℚ
  cmatrix : List (List ℚ)
  agents : List Agent
  D : List Disease
  history : List (List (ℕ × ℕ × ℕ × ℕ))
  events : List Event
deriving DecidableEq

/-- `Simulation.__init__(D, m, cmatrix)`. -/
def Simulation.init (steps : ℕ) (m : ℚ) (cmatrix : List (List ℚ)) : Simulation :=
  { steps := steps, m := m, cmatrix := cmatrix,
    agents := [], D := [], history := [], events := [] }

/-- `Simulation.join(agent)` (lines 190-192). -/
def Simulation.join (sim : Simulation) (a : Agent) : Simulation :=
  { sim with agents := sim.agents ++ [a] }

/-- `Simulation.populate(n, g)` (lines 184-187): `n` agents of group `g`,
each with contact vector `cmatrix[g]` and the default traits
`s = 0.99`, `q = 0.9`. -/
def Simulation.populate (sim : Simulation) (n : ℕ) (g : ℕ) : Simulation :=
  (List.range n).foldl
    (fun s _ => s.join (Agent.init g (s.cmatrix.getD g []) (99/100) (9/10))) sim

/-- `Simulation.introduce(disease)` (lines 195-197). -/
def Simulation.introduce (sim : Simulation) (dis : Disease) : Simulation :=
  { sim with D := sim.D ++ [dis] }

/-- Dummy agent used as the (never consulted in range) `getD` default. -/
def dummyAgent : Agent := Agent.init 0 [] 0 0

/-- Seeding a single agent: `agent.c[agent.index(disease)] = E + I + 1`
(lines 203-205). -/
def seedAgent (a : Agent) (dis : Disease) : Agent :=
  let p := a.index dis
  { p.1 with c := p.1.c.set p.2 (dis.E + dis.I + 1) }

/-- `Simulation.seed(disease, k)` (lines 200-205): `random.sample` picks
`k` distinct valid positions; the selection itself comes from the
`samp` oracle (one cursor tick), out-of-range picks are discarded. -/
def Simulation.seedDis (sim : Simulation) (dis : Disease) (n : ℕ) (rng : Rng) :
    Simulation × Rng :=
  let idxs := (rng.samp rng.k n).filter (fun i => decide (i < sim.agents.length))
  let rng2 : Rng := { rng with k := rng.k + 1 }
  let ags2 := idxs.foldl
    (fun ags i => ags.set i (seedAgent (ags.getD i dummyAgent) dis)) sim.agents
  ({ sim with agents := ags2 }, rng2)

/-- `Simulation.order(time, disease, Q)` (lines 304-306). -/
def Simulation.order (sim : Simulation) (time : ℕ) (dis : Disease) (q : ℤ) :
    Simulation :=
  { sim with events := sim.events ++ [Event.quarantine time dis.id q] }

/-- `Simulation.campaign(time, disease, coverage, v)` (lines 309-311). -/
def Simulation.campaign (sim : Simulation) (time : ℕ) (dis : Disease)
    (coverage : ℚ) (vv : ℚ) : Simulation :=
  { sim with events := sim.events ++ [Event.vaccinate time dis.id coverage vv] }

/-- `Simulation.infect(time, disease, k)` (lines 314-316): schedules a
seed event. -/
def Simulation.infectEvent (sim : Simulation) (time : ℕ) (dis : Disease) (n : ℕ) :
    Simulation :=
  { sim with events := sim.events ++ [Event.seed time dis.id n] }

/-- The vaccination-campaign loop of `run` (lines 229-231): one coverage
roll per agent, in population order; on success the agent's vaccine
factor for the disease becomes `1 - effectiveness`. -/
def vaccinateAgents (dis : Disease) (coverage : ℚ) (vv : ℚ) :
    List Agent → Rng → List Agent × Rng
  | [], rng => ([], rng)
  | ag :: rest, rng =>
      let rr := rolldie coverage rng
      let ag2 := if rr.1 then ag.vaccinate dis (1 - vv) else ag
      let rec2 := vaccinateAgents dis coverage vv rest rr.2
      (ag2 :: rec2.1, rec2.2)

/-- Application of one due event inside `run` (lines 217-237).  The
quarantine event writes `event[2].Q = event[3]` directly on the disease
object, i.e. on the roster entry with that id, with no clamping.
Vaccinate and seed events resolve the disease object via the roster (an
event for an unregistered disease cannot influence the simulation, since
`run` only ever reads roster diseases). -/
def Simulation.applyEvent (sim : Simulation) (ev : Event) (rng : Rng) :
    Simulation × Rng :=
  match ev with
  | .quarantine _ disId qq =>
      let newD := sim.D.map (fun ds => if ds.id = disId then { ds with Q := qq } else ds)
      ({ sim with D := newD }, rng)
  | .vaccinate _ disId coverage vv =>
      match sim.D.find? (fun ds => ds.id == disId) with
      | some ds =>
          let res := vaccinateAgents ds coverage vv sim.agents rng
          ({ sim with agents := res.1 }, res.2)
      | none => (sim, rng)
  | .seed _ disId n =>
      match sim.D.find? (fun ds => ds.id == disId) with
      | some ds => sim.seedDis ds n rng
      | none => (sim, rng)

/-- The event scan at the top of each day (lines 217-218): every event
whose day equals today fires, in insertion order. -/
def Simulation.applyEvents : Simulation → ℕ → List Event → Rng → Simulation × Rng
  | sim, _, [], rng => (sim, rng)
  | sim, i, ev :: evs, rng =>
      if ev.day = i then
        let r2 := sim.applyEvent ev rng
        Simulation.applyEvents r2.1 i evs r2.2
      else Simulation.applyEvents sim i evs rng

/-- The per-disease agent update sweep (lines 254-255), in population
order, threading the random stream; the returned infection status is
discarded exactly as in the source. -/
def updateAgents (dis : Disease) : List Agent → Rng → List Agent × Rng
  | [], rng => ([], rng)
  | ag :: rest, rng =>
      let r3 := ag.update dis rng
      let rec2 := updateAgents dis rest r3.2.2
      (r3.1 :: rec2.1, rec2.2)

/-- The state-vector comprehension (line 261): `a.state(disease)` for each
agent in order; `state` may lazily register the disease, so the agents
are threaded through. -/
def stateAgents (dis : Disease) : List Agent → List Agent × List S4
  | [] => ([], [])
  | ag :: rest =>
      let r2 := ag.state dis
      let rec2 := stateAgents dis rest
      (r2.1 :: rec2.1, r2.2 :: rec2.2)

/-- `len([s for s in state if s[0]])` (line 263). -/
def cntE (st : List S4) : ℕ := (st.filter (fun x => x.1)).length

/-- `len([s for s in state if s[1] or s[2]])` (line 264). -/
def cntIvQ (st : List S4) : ℕ := (st.filter (fun x => x.2.1 || x.2.2.1)).length

/-- `len([s for s in state if s[2]])` (line 265). -/
def cntQ (st : List S4) : ℕ := (st.filter (fun x => x.2.2.1)).length

/-- `len([s for s in state if s[3]])` (line 266). -/
def cntS (st : List S4) : ℕ := (st.filter (fun x => x.2.2.2)).length

/-- The `(E, IvQ, Q, S)` tuple appended to the day's entry (lines 263-266). -/
def stateCounts (st : List S4) : ℕ × ℕ × ℕ × ℕ :=
  (cntE st, cntIvQ st, cntQ st, cntS st)

/-- `sum([sum(x[:3]) for x in state])` (line 268), booleans summed as
integers. -/
def sumFirst3 (st : List S4) : ℕ :=
  (st.map (fun x => x.1.toNat + x.2.1.toNat + x.2.2.1.toNat)).sum

/-- The inner contact loop of the transmission round (lines 274-278) for a
fixed source position `j`: for each position `k` whose precomputed state
is susceptible, roll the mixing die and on success let agent `k` try to
get infected by agent `j`. -/
def transmitFrom (dis : Disease) (m : ℚ) (st : List S4) (j : ℕ) :
    List ℕ → List Agent → Rng → List Agent × Rng
  | [], ags, rng => (ags, rng)
  | idx :: ks, ags, rng =>
      if (st.getD idx (false, false, false, false)).2.2.2 then
        let rr := rolldie m rng
        if rr.1 then
          let r3 := (ags.getD idx dummyAgent).infect (ags.getD j dummyAgent) dis rr.2
          transmitFrom dis m st j ks (ags.set idx r3.1) r3.2.2
        else transmitFrom dis m st j ks ags rr.2
      else transmitFrom dis m st j ks ags rng

/-- The outer loop of the transmission round (lines 271-278): each
position `j` whose precomputed state is exposed or infectious runs the
inner contact loop over all positions. -/
def transmissionRound (dis : Disease) (m : ℚ) (st : List S4) :
    List ℕ → List Agent → Rng → List Agent × Rng
  | [], ags, rng => (ags, rng)
  | j :: js, ags, rng =>
      let sj := st.getD j (false, false, false, false)
      if sj.1 || sj.2.1 then
        let rr := transmitFrom dis m st j (List.range ags.length) ags rng
        transmissionRound dis m st js rr.1 rr.2
      else transmissionRound dis m st js ags rng

/-- The per-disease body of the daily loop (lines 252-278): update sweep,
state vector, day entry, contagion flag, transmission round; returns the
agents, the random stream, the list of per-disease count tuples in
roster order, and the contagion flag. -/
def diseaseLoop (m : ℚ) : List Disease → List Agent → Rng →
    List Agent × Rng × List (ℕ × ℕ × ℕ × ℕ) × Bool
  | [], ags, rng => (ags, rng, [], false)
  | dis :: ds, ags, rng =>
      let ur := updateAgents dis ags rng
      let sr := stateAgents dis ur.1
      let st := sr.2
      let tr := transmissionRound dis m st (List.range sr.1.length) sr.1 ur.2
      let rest := diseaseLoop m ds tr.1 tr.2
      (rest.1, rest.2.1, stateCounts st :: rest.2.2.1,
        (decide (0 < sumFirst3 st) || rest.2.2.2))

/-- One iteration of the daily loop (lines 215-280): due events, then the
per-disease sweep, then the append of today's entry to the history;
returns the simulation, the random stream and the contagion flag. -/
def Simulation.runDay (sim : Simulation) (i : ℕ) (rng : Rng) :
    Simulation × Rng × Bool :=
  let er := Simulation.applyEvents sim i sim.events rng
  let dl := diseaseLoop er.1.m er.1.D er.1.agents er.2
  ({ er.1 with agents := dl.1, history := er.1.history ++ [dl.2.2.1] },
    dl.2.1, dl.2.2.2)

/-- The daily loop of `run` (lines 215-284), fuel-recursive over the
remaining iterations of `range(self.steps)`: after each day, terminate
when there is no contagion and no event is scheduled strictly after
today (line 283). -/
def Simulation.runAux : ℕ → ℕ → Simulation → Rng → Simulation
  | 0, _, sim, _ => sim
  | fuel + 1, i, sim, rng =>
      let r := sim.runDay i rng
      if r.2.2 = false ∧ r.1.events.all (fun ev => decide (ev.day ≤ i)) = true then
        r.1
      else Simulation.runAux fuel (i + 1) r.1 r.2.1

/-- `Simulation.run()` (lines 213-286); the history lives in the returned
simulation. -/
def Simulation.run (sim : Simulation) (rng : Rng) : Simulation :=
  Simulation.runAux sim.steps 0 sim rng

/-- A single daily update has no contagion left for a disease exactly when
the recorded `(E, IvQ, Q, S)` tuple has `E + IvQ = 0`; a whole day entry
is clear when this holds for every registered disease. -/
abbrev stopEntry (entry : List (ℕ × ℕ × ℕ × ℕ)) : Prop :=
  ∀ t ∈ entry, t.1 + t.2.1 = 0

/-- The early-termination condition of line 283 at day `i`, expressed on
the day's history entry and the event schedule. -/
abbrev stopAt (evs : List Event) (i : ℕ) (entry : List (ℕ × ℕ × ℕ × ℕ)) : Prop :=
  stopEntry entry ∧ ∀ ev ∈ evs, ev.day ≤ i

/-- Sound accounting bounds for a history tuple over a population of `n`
agents: the quarantined column is contained in the infectious-or-
quarantined column, and `E + IvQ + S` cannot exceed the population. -/
abbrev goodTuple (n : ℕ) (t : ℕ × ℕ × ℕ × ℕ) : Prop :=
  t.2.2.1 ≤ t.2.1 ∧ t.1 + t.2.1 + t.2.2.2 ≤ n

/-- Number of agents classified Recovered (the all-false truth vector,
which `run` records in none of the four columns). -/
def cntR (st : List S4) : ℕ :=
  (st.filter (fun x => decide (x = ((false, false, false, false) : S4)))).length

/-- An arbitrary finite future of daily updates: each element carries the
disease and the random stream used for that update. -/
def updateSeq (a : Agent) : List (Disease × Rng) → Agent
  | [] => a
  | p :: rest => updateSeq ((a.update p.1 p.2).1) rest

/-- A random stream whose every draw is 0 (all rolls succeed). -/
def rng0 : Rng := { u := fun _ => 0, samp := fun _ _ => [], k := 0 }

/-- A random stream whose every draw is 1 (rolls of probability below 1 fail). -/
def rng1 : Rng := { u := fun _ => 1, samp := fun _ _ => [], k := 0 }

/-- One-day disease (`E = 0`, `I = 1`) with certain immunity on recovery. -/
def C1dis : Disease := { id := 0, name := "flu", t := 0, E := 0, I := 1, Q := 0, r := 1 }

/-- A single agent two days from recovery with respect to `C1dis`. -/
def C1agent : Agent :=
  { g := 0, cp := [1], s := 1, q := 1, Q := [false], c := [2], D := [0], v := [1] }

/-- One-agent simulation that reaches the Recovered state on day 1. -/
def C1sim : Simulation :=
  { steps := 2, m := 0, cmatrix := [[1]], agents := [C1agent], D := [C1dis],
    history := [], events := [] }

/-- Same scenario with spare days, so that the run terminates early. -/
def C7wsim : Simulation := { C1sim with steps := 4 }

/-- Disease with `I = 7` and a three-day quarantine configured. -/
def C4dis : Disease := { id := 0, name := "flu", t := 1, E := 0, I := 7, Q := 3, r := 0 }

/-- Quarantined agent whose next decrement reaches `I - Q = 4`. -/
def C4a0 : Agent :=
  { g := 0, cp := [1], s := 1, q := 1, Q := [true], c := [5], D := [0], v := [1] }

/-- Fully susceptible contact of `C4a0`. -/
def C4a1 : Agent :=
  { g := 0, cp := [1], s := 1, q := 1, Q := [false], c := [-1], D := [0], v := [1] }

/-- One-day simulation in which `C4a0`'s quarantine expires on day 0. -/
def C4sim : Simulation :=
  { steps := 1, m := 1, cmatrix := [[1]], agents := [C4a0, C4a1], D := [C4dis],
    history := [], events := [] }

/-- A disease and a lone susceptible agent, for the termination boundary. -/
def C7dis : Disease := { id := 0, name := "flu", t := 1, E := 2, I := 7, Q := 0, r := 0 }

/-- Susceptible agent tracking `C7dis`. -/
def C7agent : Agent :=
  { g := 0, cp := [1], s := 1, q := 1, Q := [false], c := [-1], D := [0], v := [1] }

/-- One-day simulation whose stop condition already holds on day 0. -/
def C7csim : Simulation :=
  { steps := 1, m := 0, cmatrix := [[1]], agents := [C7agent], D := [C7dis],
    history := [], events := [] }

/-- Disease with recovery probability 1/2, for the failed immunity roll. -/
def C3dis : Disease := { id := 0, name := "flu", t := 1, E := 2, I := 7, Q := 0, r := 1/2 }

/-- Agent on its last infectious day for `C3dis`. -/
def C3agent : Agent :=
  { g := 0, cp := [1], s := 1, q := 1, Q := [false], c := [1], D := [0], v := [1] }

/-- Agent in mid-infection (counter 5), for the ordinary decrement. -/
def C3wagent : Agent :=
  { g := 0, cp := [1], s := 1, q := 1, Q := [false], c := [5], D := [0], v := [1] }

/-- Fully transmissible disease for the contact-vector lookup check. -/
def C2dis : Disease := { id := 0, name := "flu", t := 1, E := 2, I := 7, Q := 0, r := 0 }

/-- Susceptible target of group 1 with contact vector `[1/4, 1]`. -/
def C2target : Agent :=
  { g := 1, cp := [1/4, 1], s := 1, q := 1, Q := [false], c := [-1], D := [0], v := [1] }

/-- Infectious source of group 0 with contact vector `[1, 1/2]`. -/
def C2source : Agent :=
  { g := 0, cp := [1, 1/2], s := 1, q := 1, Q := [false], c := [3], D := [0], v := [1] }

/-- Draw 2/5: inside the source-vector product 1/2, outside the actual
target-vector product 1/4. -/
def C2rng : Rng := { u := fun _ => 2/5, samp := fun _ _ => [], k := 0 }

/-- Draw 1/5: inside the actual target-vector product 1/4. -/
def C2rngw : Rng := { u := fun _ => 1/5, samp := fun _ _ => [], k := 0 }

/-- Disease with `I = 7`, for the quarantine-clamp comparison. -/
def C5ds : Disease := { id := 3, name := "mumps", t := 1, E := 2, I := 7, Q := 0, r := 0 }

/-- Simulation whose roster holds `C5ds`. -/
def C5sim : Simulation :=
  { steps := 10, m := 0, cmatrix := [[1]], agents := [], D := [C5ds],
    history := [], events := [] }

/-- Two diseases tracked by one agent, for the cross-disease coupling. -/
def C6disA : Disease := { id := 0, name := "a", t := 1, E := 2, I := 7, Q := 3, r := 0 }

/-- The queried disease (the agent is not quarantined for it). -/
def C6disB : Disease := { id := 1, name := "b", t := 1, E := 2, I := 7, Q := 0, r := 0 }

/-- Agent quarantined for disease id 0 only, infectious-range counter 3
for disease id 1. -/
def C6agent : Agent :=
  { g := 0, cp := [1], s := 1, q := 1, Q := [true, false], c := [6, 3],
    D := [0, 1], v := [1, 1] }

/-- Agent already recovered (counter 0) with respect to disease id 0. -/
def C8agent : Agent :=
  { g := 0, cp := [1], s := 1, q := 1, Q := [false], c := [0], D := [0], v := [1] }

/-- Disease with `Q = I = 7`, reachable through the clamped setter. -/
def C10dis : Disease := { id := 0, name := "flu", t := 1, E := 2, I := 7, Q := 7, r := 0 }

/-- Agent quarantined for `C10dis` on its final counted day. -/
def C10agent : Agent :=
  { g := 0, cp := [1], s := 1, q := 1, Q := [true, false], c := [1, 4],
    D := [0, 1], v := [1, 1] }

/-! ### List helper lemmas -/

lemma getD_set_self {α : Type} (l : List α) (n : ℕ) (x d : α) (h : n < l.length) :
    (l.set n x).getD n d = x := by
  induction l generalizing n with
  | nil => simp at h
  | cons a t ih =>
      cases n with
      | zero => simp [List.set]
      | succ m =>
          simp only [List.set, List.getD_cons_succ]
          exact ih m (by simpa using h)

lemma getD_set_ne {α : Type} (l : List α) (n m : ℕ) (x d : α) (h : n ≠ m) :
    (l.set n x).getD m d = l.getD m d := by
  induction l generalizing n m with
  | nil => simp [List.set]
  | cons a t ih =>
      cases n with
      | zero =>
          cases m with
          | zero => exact absurd rfl h
          | succ mm => simp [List.set]
      | succ nn =>
          cases m with
          | zero => simp [List.set]
          | succ mm =>
              simp only [List.set, List.getD_cons_succ]
              exact ih nn mm (fun he => h (by rw [he]))

lemma lt_length_of_getD_ne {α : Type} (l : List α) (n : ℕ) (d : α)
    (h : l.getD n d ≠ d) : n < l.length := by
  by_contra hn
  exact h (List.getD_eq_default l d (Nat.le_of_not_lt hn))

lemma getD_append_single {α : Type} (l : List α) (x d : α) (m : ℕ) :
    (l ++ [x]).getD m d = if m < l.length then l.getD m d else if m = l.length then x else d := by
  by_cases h1 : m < l.length
  · rw [List.getD_append _ _ _ _ h1, if_pos h1]
  · rw [if_neg h1, List.getD_append_right _ _ _ _ (Nat.le_of_not_lt h1)]
    by_cases h2 : m = l.length
    · subst h2
      simp
    · rw [if_neg h2]
      have h3 : l.length + 1 ≤ m :=
        Nat.succ_le_of_lt (Nat.lt_of_le_of_ne (Nat.le_of_not_lt h1) (fun he => h2 he.symm))
      have : 1 ≤ m - l.length := by omega
      exact List.getD_eq_default _ _ (by simpa using this)

lemma any_eq_true_of_getD (l : List Bool) (n : ℕ) (h : l.getD n false = true) :
    l.any (fun b => b) = true := by
  induction l generalizing n with
  | nil => simp at h
  | cons a t ih =>
      cases n with
      | zero =>
          simp only [List.getD_cons_zero] at h
          simp [h]
      | succ m =>
          simp only [List.getD_cons_succ] at h
          simp [ih m h]

lemma any_eq_false_of_getD (l : List Bool) (h : ∀ j, l.getD j false = false) :
    l.any (fun b => b) = false := by
  induction l with
  | nil => simp
  | cons a t ih =>
      have h0 := h 0
      simp only [List.getD_cons_zero] at h0
      have ht : ∀ j, t.getD j false = false := fun j => by
        have := h (j + 1)
        simpa using this
      simp [h0, ih ht]

/-! ### Basic facts about `Agent.index` and `Agent.state` -/

lemma index_found (a : Agent) (dis : Disease) (d : ℕ)
    (hd : a.D.findIdx? (fun x => x == dis.id) = some d) : a.index dis = (a, d) := by
  unfold Agent.index
  rw [hd]

lemma state_shape (a : Agent) (dis : Disease) :
    (a.state dis).2 = (false, false, false, false) ∨
    (a.state dis).2 = (false, false, false, true) ∨
    (a.state dis).2 = (true, false, false, false) ∨
    (a.state dis).2 = (false, false, true, false) ∨
    (a.state dis).2 = (false, true, false, false) := by
  unfold Agent.state
  dsimp only
  split
  · exact Or.inl rfl
  · split
    · exact Or.inr (Or.inl rfl)
    · split
      · exact Or.inr (Or.inr (Or.inl rfl))
      · split
        · exact Or.inr (Or.inr (Or.inr (Or.inl rfl)))
        · exact Or.inr (Or.inr (Or.inr (Or.inr rfl)))

/-! ### Counting lemmas for the per-day tuples -/

lemma cntQ_le_cntIvQ (st : List S4) : cntQ st ≤ cntIvQ st := by
  induction st with
  | nil => simp [cntQ, cntIvQ]
  | cons x t ih =>
      simp only [cntQ, cntIvQ, List.filter_cons] at *
      cases h2 : x.2.1 <;> cases h3 : x.2.2.1 <;> simp_all
      omega

lemma shaped_accounting (st : List S4)
    (hs : ∀ x ∈ st,
      x = ((false, false, false, false) : S4) ∨ x = (false, false, false, true) ∨
      x = (true, false, false, false) ∨ x = (false, false, true, false) ∨
      x = (false, true, false, false)) :
    cntE st + cntIvQ st + cntS st + cntR st = st.length := by
  induction st with
  | nil => simp [cntE, cntIvQ, cntS, cntR]
  | cons x t ih =>
      have hx := hs x (List.mem_cons_self x t)
      have ht := ih (fun y hy => hs y (List.mem_cons_of_mem x hy))
      rcases hx with h | h | h | h | h <;>
        subst h <;>
        simp only [cntE, cntIvQ, cntS, cntR, List.filter_cons] at * <;>
        simp_all <;> omega

lemma sumFirst3_eq_zero_iff (st : List S4) :
    sumFirst3 st = 0 ↔ cntE st + cntIvQ st = 0 := by
  induction st with
  | nil => simp [sumFirst3, cntE, cntIvQ]
  | cons x t ih =>
      simp only [sumFirst3, List.map_cons, List.sum_cons] at *
      simp only [cntE, cntIvQ, List.filter_cons] at *
      cases h1 : x.1 <;> cases h2 : x.2.1 <;> cases h3 : x.2.2.1 <;>
        simp_all [Bool.toNat]

/-! ### Claim C2: the contact-probability lookup in `infect` -/

/-- Claim C2 (amended): for a transmission attempt on a susceptible
target, infection occurs exactly when the uniform draw is at most
`susceptibility × vaccineFactor × targetContactVector[sourceGroup] ×
transmissibility`: the contact multiplier is looked up in the *target's*
per-group contact vector at the index given by the *source's* group
(line 122: `self.cp[other.g]`), not the other way around. -/
theorem C2_infect_probability (a other : Agent) (dis : Disease) (rng : Rng) (d : ℕ)
    (hd : a.D.findIdx? (fun x => x == dis.id) = some d)
    (hc : a.c.getD d 0 < 0) :
    (a.infectProb other dis d =
      a.s * a.v.getD d 0 * a.cp.getD other.g 0 * dis.t) ∧
    ((a.infect other dis rng).2.1 = true ↔
      rng.u rng.k ≤ a.infectProb other dis d) := by
  refine ⟨rfl, ?_⟩
  simp only [Agent.infect, index_found a dis d hd, rolldie]
  rw [if_pos hc]
  by_cases h : rng.u rng.k ≤ a.infectProb other dis d
  · simp [h]
  · simp [h]

/-- Witness for C2: with the target's vector `[1/4, 1]`, source group 0
and draw 1/5 ≤ 1/4, the infection succeeds. -/
theorem C2_witness : (C2target.infect C2source C2dis C2rngw).2.1 = true :=
  (C2_infect_probability C2target C2source C2dis C2rngw 0 (by decide)
    (by decide)).2.mpr (by decide)
/-- Counterexample to C2 as stated: the draw 2/5 lies within the
product formed with the *source's* contact vector at the *target's*
group (1/2), yet no infection occurs, because the code's actual
Bernoulli parameter uses the target's vector at the source's group
(1/4). -/
theorem C2_counterexample :
    (C2target.infect C2source C2dis C2rng).2.1 = false ∧
    C2rng.u C2rng.k ≤
      C2target.s * C2target.v.getD 0 0 * C2source.cp.getD C2target.g 0 * C2dis.t ∧
    C2target.infectProb C2source C2dis 0 ≠
      C2target.s * C2target.v.getD 0 0 * C2source.cp.getD C2target.g 0 * C2dis.t := by
  refine ⟨by decide, by decide, by decide⟩

/-! ### Claim C3: how far a daily update can move the counter -/

/-! ### Stability of the lazy disease registration -/

lemma index_none (a : Agent) (dis : Disease)
    (hn : a.D.findIdx? (fun x => x == dis.id) = none) :
    a.index dis = ({ a with D := a.D ++ [dis.id], Q := a.Q ++ [false],
                            c := a.c ++ [-1], v := a.v ++ [1] }, a.D.length) := by
  unfold Agent.index
  rw [hn]

lemma index_stable (a : Agent) (dis : Disease) :
    (a.index dis).1.D.findIdx? (fun x => x == dis.id) = some (a.index dis).2 := by
  unfold Agent.index
  cases hfi : a.D.findIdx? (fun x => x == dis.id) with
  | some i => simpa using hfi
  | none =>
      simp only [List.findIdx?_append, hfi]
      simp

lemma index_idem (a : Agent) (dis : Disease) :
    (a.index dis).1.index dis = ((a.index dis).1, (a.index dis).2) :=
  index_found _ dis _ (index_stable a dis)

lemma update_eq_of_index (a : Agent) (dis : Disease) (rng : Rng) :
    a.update dis rng = (a.index dis).1.update dis rng := by
  conv_rhs => rw [Agent.update, index_idem]
  rfl

lemma updateTail_c (a1 : Agent) (d : ℕ) (dis : Disease) (rng : Rng) :
    (a1.updateTail d dis rng).1.c = a1.c.set d (a1.c.getD d 0 - 1) := by
  unfold Agent.updateTail
  split
  · dsimp only
    split
    · rfl
    · rfl
  · rfl

lemma update_c_characterization (a1 : Agent) (dis : Disease) (rng : Rng) (d : ℕ)
    (hfi : a1.D.findIdx? (fun x => x == dis.id) = some d) :
    (a1.c.getD d 0 ≤ 0 →
      (a1.update dis rng).1.c.getD d 0 = a1.c.getD d 0) ∧
    (a1.c.getD d 0 = 1 →
      (a1.update dis rng).1.c.getD d 0 = 0 ∨ (a1.update dis rng).1.c.getD d 0 = -1) ∧
    (2 ≤ a1.c.getD d 0 →
      (a1.update dis rng).1.c.getD d 0 = a1.c.getD d 0 - 1) := by
  have hidx : a1.index dis = (a1, d) := index_found a1 dis d hfi
  refine ⟨fun hc => ?_, fun hc => ?_, fun hc => ?_⟩
  · simp only [Agent.update, hidx]
    rw [if_pos hc]
  · have hd : d < a1.c.length :=
      lt_length_of_getD_ne a1.c d 0 (by rw [hc]; exact one_ne_zero)
    simp only [Agent.update, hidx]
    rw [if_neg (by omega), if_pos hc]
    cases hroll : (rolldie dis.r rng).1 with
    | false =>
        rw [if_pos rfl]
        right
        exact getD_set_self a1.c d (-1) 0 hd
    | true =>
        rw [if_neg (by simp)]
        left
        exact getD_set_self a1.c d 0 0 hd
  · have hd : d < a1.c.length :=
      lt_length_of_getD_ne a1.c d 0 (by omega)
    simp only [Agent.update, hidx]
    rw [if_neg (by omega), if_neg (by omega)]
    by_cases hq : a1.c.getD d 0 = dis.I + 1 ∧ 0 < dis.Q
    · rw [if_pos hq]
      cases hroll : (rolldie a1.q rng).1 with
      | true =>
          rw [if_pos rfl]
          exact getD_set_self a1.c d _ 0 hd
      | false =>
          rw [if_neg (by simp), updateTail_c]
          exact getD_set_self a1.c d _ 0 hd
    · rw [if_neg hq, updateTail_c]
      exact getD_set_self a1.c d _ 0 hd

/-- Claim C3 (amended): one daily update leaves a non-positive counter
unchanged, moves counter 1 to 0 or directly to -1 (the failed immunity
roll skips 0 and decreases the counter by 2), and otherwise decrements
by exactly 1; the only other counter movement anywhere is the
transmission/seeding reset to `E+I+1`. -/
theorem C3_update_step (a : Agent) (dis : Disease) (rng : Rng) :
    ((a.index dis).1.c.getD (a.index dis).2 0 ≤ 0 →
      (a.update dis rng).1.c.getD (a.index dis).2 0 =
        (a.index dis).1.c.getD (a.index dis).2 0) ∧
    ((a.index dis).1.c.getD (a.index dis).2 0 = 1 →
      (a.update dis rng).1.c.getD (a.index dis).2 0 = 0 ∨
      (a.update dis rng).1.c.getD (a.index dis).2 0 = -1) ∧
    (2 ≤ (a.index dis).1.c.getD (a.index dis).2 0 →
      (a.update dis rng).1.c.getD (a.index dis).2 0 =
        (a.index dis).1.c.getD (a.index dis).2 0 - 1) := by
  rw [update_eq_of_index a dis rng]
  exact update_c_characterization (a.index dis).1 dis rng (a.index dis).2
    (index_stable a dis)

/-- Witness for C3: an agent with counter 5 is decremented to exactly 4
by one daily update. -/
theorem C3_witness : (C3wagent.update C3dis rng1).1.c.getD 0 0 = (5 : ℤ) - 1 :=
  (C3_update_step C3wagent C3dis rng1).2.2 (by decide)

/-- Counterexample to C3 as stated: on its last infectious day with a
failed immunity roll (draw 1 > r = 1/2), the counter moves from 1
directly to -1, skipping 0 and decreasing by 2 in a single daily
update. -/
theorem C3_counterexample :
    C3agent.c.getD 0 0 = 1 ∧
    (C3agent.update C3dis rng1).1.c.getD 0 0 = -1 ∧
    ¬(C3agent.c.getD 0 0 - (C3agent.update C3dis rng1).1.c.getD 0 0 ≤ 1) := by
  refine ⟨by decide, by decide, by decide⟩

/-! ### Claim C5: the two quarantine-setting paths -/

/-- Claim C5 (confirmed): `Disease.quarantine` stores `min(days, I)`,
while the scheduled quarantine event writes the raw requested value into
the roster entry with the disease's id; for `days > I` the two paths
therefore store different values. -/
theorem C5_quarantine_paths (dis : Disease) (days : ℤ) (sim : Simulation)
    (rng : Rng) (dday : ℕ) (ds : Disease)
    (hmem : ds ∈ sim.D) (hid : ds.id = dis.id) (hgt : dis.I < days) :
    (Disease.quarantine dis days).Q = min days dis.I ∧
    ({ ds with Q := days } ∈
      (sim.applyEvent (Event.quarantine dday dis.id days) rng).1.D) ∧
    (Disease.quarantine dis days).Q ≠ days := by
  refine ⟨rfl, ?_, ?_⟩
  · simp only [Simulation.applyEvent]
    have : ({ ds with Q := days } : Disease) =
        (fun d0 => if d0.id = dis.id then { d0 with Q := days } else d0) ds := by
      simp [hid]
    rw [this]
    exact List.mem_map_of_mem _ hmem
  · simp only [Disease.quarantine]
    omega

/-- Witness for C5: requesting 9 days of quarantine for a disease with
`I = 7` stores 7 through the setter but 9 through the event path. -/
theorem C5_witness :
    (Disease.quarantine C5ds 9).Q = min 9 C5ds.I ∧
    ({ C5ds with Q := 9 } ∈
      (C5sim.applyEvent (Event.quarantine 0 C5ds.id 9) rng0).1.D) ∧
    (Disease.quarantine C5ds 9).Q ≠ 9 :=
  C5_quarantine_paths C5ds 9 C5sim rng0 0 C5ds (by decide) rfl (by decide)

/-! ### Claim C9: constructor validation -/

/-- Claim C9 (amended): the constructors perform no validation at all:
`Disease.__init__` and `Agent.__init__` accept arbitrary values,
including negative durations and probabilities outside `[0,1]`, and
store them unchanged (with `Q` initialised to 0 and the per-disease
lists empty); no configuration error exists in the engine. -/
theorem C9_no_validation :
    (∀ (id : ℕ) (nm : String) (t : ℚ) (E I : ℤ) (r : ℚ),
      E < 0 ∨ I < 0 ∨ t < 0 ∨ 1 < t ∨ r < 0 ∨ 1 < r →
      Disease.init id nm t E I r =
        { id := id, name := nm, t := t, E := E, I := I, Q := 0, r := r }) ∧
    (∀ (g : ℕ) (cp : List ℚ) (s q : ℚ),
      s < 0 ∨ 1 < s ∨ q < 0 ∨ 1 < q →
      Agent.init g cp s q =
        { g := g, cp := cp, s := s, q := q, Q := [], c := [], D := [], v := [] }) :=
  ⟨fun _ _ _ _ _ _ _ => rfl, fun _ _ _ _ _ => rfl⟩

/-- Witness for C9: a disease with negative exposure duration and an
agent with susceptibility 3/2 are both accepted verbatim. -/
theorem C9_witness :
    Disease.init 0 "influenza" (19/20) (-1) 7 (1/2) =
      { id := 0, name := "influenza", t := 19/20, E := -1, I := 7, Q := 0, r := 1/2 } ∧
    Agent.init 0 [] (3/2) (9/10) =
      { g := 0, cp := [], s := 3/2, q := 9/10, Q := [], c := [], D := [], v := [] } :=
  ⟨C9_no_validation.1 0 "influenza" (19/20) (-1) 7 (1/2) (Or.inl (by norm_num)),
   C9_no_validation.2 0 [] (3/2) (9/10) (Or.inr (Or.inl (by norm_num)))⟩

/-- Counterexample to C9 as stated: constructing a `Disease` with the
negative duration `E = -1` does not raise any error: it succeeds and the
invalid value is stored unchanged, likewise an `Agent` with
susceptibility `3/2` outside `[0,1]`. -/
theorem C9_counterexample :
    (Disease.init 0 "influenza" (19/20) (-1) 7 (1/2)).E = -1 ∧
    ((-1 : ℤ) < 0) ∧
    (Agent.init 0 [] (3/2) (9/10)).s = 3/2 ∧ (1 < (3/2 : ℚ)) := by
  refine ⟨rfl, by decide, rfl, by norm_num⟩

/-! ### Claim C6: classification priority and cross-disease quarantine -/

/-- Claim C6 (confirmed): the classification for a disease found at
index `d` follows the fixed priority Recovered (`c = 0`), Susceptible
(`c < 0`), Exposed (`c > I`), Quarantined, Infectious; the first three
fire regardless of any quarantine flag, and the Quarantined branch fires
whenever *any* entry of the agent's quarantine vector is set (not only
the queried disease's), so a cross-quarantined agent with counter in
`1..I` is classified Quarantined, hence non-infectious, for the queried
disease. -/
theorem C6_state_priority (a : Agent) (dis : Disease) (d : ℕ)
    (hd : a.D.findIdx? (fun x => x == dis.id) = some d) :
    (a.c.getD d 0 = 0 → (a.state dis).2 = (false, false, false, false)) ∧
    (a.c.getD d 0 < 0 → (a.state dis).2 = (false, false, false, true)) ∧
    (1 ≤ a.c.getD d 0 → dis.I < a.c.getD d 0 →
      (a.state dis).2 = (true, false, false, false)) ∧
    (1 ≤ a.c.getD d 0 → a.c.getD d 0 ≤ dis.I → a.Q.any (fun b => b) = true →
      (a.state dis).2 = (false, false, true, false)) ∧
    (1 ≤ a.c.getD d 0 → a.c.getD d 0 ≤ dis.I → a.Q.any (fun b => b) = false →
      (a.state dis).2 = (false, true, false, false)) := by
  have hidx : a.index dis = (a, d) := index_found a dis d hd
  refine ⟨fun h0 => ?_, fun h0 => ?_, fun h0 h1 => ?_, fun h0 h1 h2 => ?_,
    fun h0 h1 h2 => ?_⟩
  · simp only [Agent.state, hidx]
    rw [if_pos h0]
  · simp only [Agent.state, hidx]
    rw [if_neg (by omega), if_pos h0]
  · simp only [Agent.state, hidx]
    rw [if_neg (by omega), if_neg (by omega), if_pos h1]
  · simp only [Agent.state, hidx]
    rw [if_neg (by omega), if_neg (by omega), if_neg (by omega), if_pos h2]
  · simp only [Agent.state, hidx]
    rw [if_neg (by omega), if_neg (by omega), if_neg (by omega),
      if_neg (by rw [h2]; exact fun h => Bool.false_ne_true h)]

/-- Witness for C6: an agent quarantined only for disease id 0, with
counter 3 in the infectious range for disease id 1, is classified
Quarantined when queried about disease id 1. -/
theorem C6_witness : (C6agent.state C6disB).2 = (false, false, true, false) :=
  (C6_state_priority C6agent C6disB 1 (by decide)).2.2.2.1 (by decide) (by decide)
    (by decide)

/-! ### Claim C8: the transmission-attempt contract -/

/-- Claim C8 (confirmed): for a tracked disease, `infect` on a
non-susceptible target (counter at least 0) returns `False` and changes
nothing, not even the random cursor (the Python `and` short-circuits);
on success it sets the counter to exactly `E + I + 1` and touches
nothing else; for a never-seen disease the only further effect is the
lazy registration with counter -1, no quarantine, vaccine factor 1. -/
theorem C8_infect_contract (a other : Agent) (dis : Disease) (rng : Rng) :
    (∀ d, a.D.findIdx? (fun x => x == dis.id) = some d → 0 ≤ a.c.getD d 0 →
      a.infect other dis rng = (a, false, rng)) ∧
    (∀ d, a.D.findIdx? (fun x => x == dis.id) = some d →
      (a.infect other dis rng).2.1 = true →
      (a.infect other dis rng).1.c = a.c.set d (dis.E + dis.I + 1) ∧
      (a.infect other dis rng).1.Q = a.Q ∧
      (a.infect other dis rng).1.v = a.v ∧
      (a.infect other dis rng).1.D = a.D) ∧
    (a.D.findIdx? (fun x => x == dis.id) = none →
      (a.infect other dis rng).1.D = a.D ++ [dis.id] ∧
      (a.infect other dis rng).1.Q = a.Q ++ [false] ∧
      (a.infect other dis rng).1.v = a.v ++ [1] ∧
      ((a.infect other dis rng).2.1 = false →
        (a.infect other dis rng).1.c = a.c ++ [-1]) ∧
      ((a.infect other dis rng).2.1 = true →
        (a.infect other dis rng).1.c =
          (a.c ++ [-1]).set a.D.length (dis.E + dis.I + 1))) := by
  refine ⟨fun d hd hc => ?_, fun d hd hs => ?_, fun hn => ?_⟩
  · simp only [Agent.infect, index_found a dis d hd]
    rw [if_neg (by omega)]
  · simp only [Agent.infect, index_found a dis d hd] at hs ⊢
    by_cases hc : a.c.getD d 0 < 0
    · rw [if_pos hc] at hs ⊢
      cases hroll : (rolldie (a.infectProb other dis d) rng).1 with
      | true => rw [if_pos rfl]; exact ⟨rfl, rfl, rfl, rfl⟩
      | false => rw [hroll] at hs; simp at hs
    · rw [if_neg hc] at hs
      simp at hs
  · simp only [Agent.infect, index_none a dis hn]
    split
    · split
      · exact ⟨rfl, rfl, rfl, fun h => by simp at h, fun _ => rfl⟩
      · exact ⟨rfl, rfl, rfl, fun _ => rfl, fun h => by simp at h⟩
    · exact ⟨rfl, rfl, rfl, fun _ => rfl, fun h => by simp at h⟩

/-- Witness for C8: an agent already recovered from the disease (counter
0) is left entirely unchanged by an infection attempt, which returns
`False`. -/
theorem C8_witness : C8agent.infect C4a1 C2dis rng0 = (C8agent, false, rng0) :=
  (C8_infect_contract C8agent C4a1 C2dis rng0).1 0 (by decide) (by decide)

/-! ### Classification helper lemmas -/

lemma state_qtuple (a : Agent) (dis : Disease) (d : ℕ)
    (hd : a.D.findIdx? (fun x => x == dis.id) = some d)
    (h1 : 1 ≤ a.c.getD d 0) (h2 : a.c.getD d 0 ≤ dis.I)
    (hany : a.Q.any (fun b => b) = true) :
    (a.state dis).2 = (false, false, true, false) := by
  have hidx := index_found a dis d hd
  simp only [Agent.state, hidx]
  rw [if_neg (by omega), if_neg (by omega), if_neg (by omega), if_pos hany]

lemma state_ituple (a : Agent) (dis : Disease) (d : ℕ)
    (hd : a.D.findIdx? (fun x => x == dis.id) = some d)
    (h1 : 1 ≤ a.c.getD d 0) (h2 : a.c.getD d 0 ≤ dis.I)
    (hany : a.Q.any (fun b => b) = false) :
    (a.state dis).2 = (false, true, false, false) := by
  have hidx := index_found a dis d hd
  simp only [Agent.state, hidx]
  rw [if_neg (by omega), if_neg (by omega), if_neg (by omega),
    if_neg (by rw [hany]; exact fun h => Bool.false_ne_true h)]

/-! ### Claim C4: the quarantine-expiry day -/

/-- Claim C4 (amended): a quarantined agent's daily update decrements
the counter by 1; when the decrement reaches exactly `I - Q` the
quarantined flag is cleared, the update reports the agent as infectious,
and the post-update classification for that same day is already
Infectious (when no other quarantine flag is set), so the agent is
counted as infectious in that day's history entry and is eligible as a
transmission source on the very day the flag is cleared, not only from
the next day; on every other quarantined day the flag stays, the update
reports `False`, and the classification is Quarantined. -/
theorem C4_quarantine_expiry (a : Agent) (dis : Disease) (rng : Rng) (d : ℕ)
    (hd : a.D.findIdx? (fun x => x == dis.id) = some d)
    (hq : a.Q.getD d false = true)
    (h2 : 2 ≤ a.c.getD d 0)
    (hle : a.c.getD d 0 ≤ dis.I + 1)
    (hne : ¬(a.c.getD d 0 = dis.I + 1 ∧ 0 < dis.Q)) :
    ((a.update dis rng).1.c.getD d 0 = a.c.getD d 0 - 1) ∧
    (a.c.getD d 0 - 1 = dis.I - dis.Q →
      (a.update dis rng).1.Q.getD d false = false ∧
      (a.update dis rng).2.1 = true ∧
      ((∀ j, j ≠ d → a.Q.getD j false = false) →
        ((a.update dis rng).1.state dis).2 = (false, true, false, false))) ∧
    (a.c.getD d 0 - 1 ≠ dis.I - dis.Q →
      (a.update dis rng).1.Q.getD d false = true ∧
      (a.update dis rng).2.1 = false ∧
      ((a.update dis rng).1.state dis).2 = (false, false, true, false)) := by
  have hidx := index_found a dis d hd
  have hdc : d < a.c.length := lt_length_of_getD_ne a.c d 0 (by omega)
  have hdq : d < a.Q.length := by
    by_contra hlen
    rw [List.getD_eq_default a.Q false (Nat.le_of_not_lt hlen)] at hq
    exact Bool.false_ne_true hq
  have hset : (a.c.set d (a.c.getD d 0 - 1)).getD d 0 = a.c.getD d 0 - 1 :=
    getD_set_self a.c d _ 0 hdc
  simp only [Agent.update, hidx]
  rw [if_neg (by omega), if_neg (by omega), if_neg hne]
  unfold Agent.updateTail
  rw [if_pos hq]
  dsimp only
  rw [hset]
  by_cases hexp : a.c.getD d 0 - 1 = dis.I - dis.Q
  · rw [if_pos hexp]
    refine ⟨hset, fun _ => ⟨getD_set_self a.Q d false false hdq, rfl, fun honly => ?_⟩,
      fun hcon => absurd hexp hcon⟩
    have hany : (a.Q.set d false).any (fun b => b) = false := by
      apply any_eq_false_of_getD
      intro j
      by_cases hj : d = j
      · subst hj
        exact getD_set_self a.Q d false false hdq
      · rw [getD_set_ne a.Q d j false false hj]
        exact honly j (fun he => hj he.symm)
    exact state_ituple _ dis d hd (by rw [hset]; omega) (by rw [hset]; omega) hany
  · rw [if_neg hexp]
    refine ⟨hset, fun hcon => absurd hcon hexp, fun _ => ⟨hq, rfl, ?_⟩⟩
    exact state_qtuple _ dis d hd (by rw [hset]; omega) (by rw [hset]; omega)
      (any_eq_true_of_getD a.Q d hq)

/-- Witness for C4: the quarantined agent with counter 5 and `I - Q = 4`
has its flag cleared and is classified Infectious on the same day. -/
theorem C4_witness :
    (C4a0.update C4dis rng0).1.Q.getD 0 false = false ∧
    ((C4a0.update C4dis rng0).1.state C4dis).2 = (false, true, false, false) := by
  have h := (C4_quarantine_expiry C4a0 C4dis rng0 0 (by decide) (by decide)
    (by decide) (by decide) (by decide)).2.1 (by decide)
  refine ⟨h.1, h.2.2 ?_⟩
  intro j hj
  cases j with
  | zero => exact absurd rfl hj
  | succ n =>
      exact List.getD_eq_default _ _ (Nat.succ_le_succ (Nat.zero_le n))

/-- Counterexample to C4 as stated: in `C4sim`, agent 0's quarantine
expires during day 0's update; that same day's history entry records it
as infectious (IvQ column 1, quarantined column 0) and it already acts
as a transmission source, infecting the susceptible agent 1 (whose
counter becomes `E+I+1 = 8` rather than staying below 0). -/
theorem C4_counterexample :
    (C4sim.run rng0).history = [[(0, 1, 0, 1)]] ∧
    ((C4sim.run rng0).agents.getD 0 dummyAgent).Q.getD 0 false = false ∧
    ((C4sim.run rng0).agents.getD 1 dummyAgent).c.getD 0 0 = 8 ∧
    ¬(((C4sim.run rng0).agents.getD 1 dummyAgent).c.getD 0 0 < 0) := by
  refine ⟨by decide, by decide, by decide, by decide⟩

/-! ### Claim C10: a quarantine flag that is never cleared -/

lemma updateTail_preserves_ne (a1 : Agent) (i d : ℕ) (dis : Disease) (rng : Rng)
    (hid : i ≠ d) :
    (a1.updateTail i dis rng).1.Q.getD d false = a1.Q.getD d false ∧
    (a1.updateTail i dis rng).1.c.getD d 0 = a1.c.getD d 0 := by
  unfold Agent.updateTail
  split
  · dsimp only
    split
    · exact ⟨by rw [getD_set_ne a1.Q i d false false hid],
        by rw [getD_set_ne a1.c i d _ 0 hid]⟩
    · exact ⟨rfl, by rw [getD_set_ne a1.c i d _ 0 hid]⟩
  · exact ⟨rfl, by rw [getD_set_ne a1.c i d _ 0 hid]⟩

lemma update_preserves_inactive_found (a1 : Agent) (dis : Disease) (rng : Rng)
    (d i : ℕ) (hfi : a1.D.findIdx? (fun x => x == dis.id) = some i)
    (hq : a1.Q.getD d false = true) (hc : a1.c.getD d 0 ≤ 0) :
    (a1.update dis rng).1.Q.getD d false = true ∧
    (a1.update dis rng).1.c.getD d 0 ≤ 0 := by
  have hidx := index_found a1 dis i hfi
  by_cases hid : i = d
  · subst hid
    simp only [Agent.update, hidx]
    rw [if_pos hc]
    exact ⟨hq, hc⟩
  · simp only [Agent.update, hidx]
    split
    · exact ⟨hq, hc⟩
    · split
      · split
        · exact ⟨hq, by rw [getD_set_ne a1.c i d _ 0 hid]; exact hc⟩
        · exact ⟨hq, by rw [getD_set_ne a1.c i d _ 0 hid]; exact hc⟩
      · split
        · split
          · exact ⟨by rw [getD_set_ne a1.Q i d true false hid]; exact hq,
              by rw [getD_set_ne a1.c i d _ 0 hid]; exact hc⟩
          · have h := updateTail_preserves_ne a1 i d dis (rolldie a1.q rng).2 hid
            exact ⟨by rw [h.1]; exact hq, by rw [h.2]; exact hc⟩
        · have h := updateTail_preserves_ne a1 i d dis rng hid
          exact ⟨by rw [h.1]; exact hq, by rw [h.2]; exact hc⟩

lemma index_fst_Q_getD (a : Agent) (dis : Disease) (d : ℕ) :
    (a.index dis).1.Q.getD d false = a.Q.getD d false := by
  unfold Agent.index
  cases hfi : a.D.findIdx? (fun x => x == dis.id) with
  | some i => rfl
  | none =>
      dsimp only
      rw [getD_append_single]
      by_cases h1 : d < a.Q.length
      · rw [if_pos h1]
      · rw [if_neg h1, List.getD_eq_default a.Q false (Nat.le_of_not_lt h1)]
        by_cases h2 : d = a.Q.length
        · rw [if_pos h2]
        · rw [if_neg h2]

lemma index_fst_c_le (a : Agent) (dis : Disease) (d : ℕ)
    (hc : a.c.getD d 0 ≤ 0) : (a.index dis).1.c.getD d 0 ≤ 0 := by
  unfold Agent.index
  cases hfi : a.D.findIdx? (fun x => x == dis.id) with
  | some i => exact hc
  | none =>
      dsimp only
      rw [getD_append_single]
      by_cases h1 : d < a.c.length
      · rw [if_pos h1]; exact hc
      · rw [if_neg h1]
        by_cases h2 : d = a.c.length
        · rw [if_pos h2]; omega
        · rw [if_neg h2]

lemma update_preserves_inactive (a : Agent) (d : ℕ) (dis : Disease) (rng : Rng)
    (hq : a.Q.getD d false = true) (hc : a.c.getD d 0 ≤ 0) :
    (a.update dis rng).1.Q.getD d false = true ∧
    (a.update dis rng).1.c.getD d 0 ≤ 0 := by
  rw [update_eq_of_index a dis rng]
  exact update_preserves_inactive_found (a.index dis).1 dis rng d (a.index dis).2
    (index_stable a dis)
    (by rw [index_fst_Q_getD]; exact hq)
    (index_fst_c_le a dis d hc)

/-- Claim C10 (confirmed): (1) when `Q ≥ I` for a disease tracked at
index `d`, the daily update of a quarantined agent on its last counted
day (`counter = 1`) takes the recovery branch, which moves the counter
to 0 or -1 and never touches the flag; (2) once the flag is set and the
counter is non-positive, any finite sequence of further daily updates
for arbitrary diseases and random streams leaves the flag set and the
counter non-positive, so the flag is never cleared; (3) while any flag
is set, the agent is classified Quarantined, hence non-infectious, for
every tracked disease whose counter lies in `1..I`. -/
theorem C10_flag_stuck :
    (∀ (a : Agent) (dis : Disease) (rng : Rng) (d : ℕ),
      a.D.findIdx? (fun x => x == dis.id) = some d → dis.I ≤ dis.Q →
      a.Q.getD d false = true → a.c.getD d 0 = 1 →
      (a.update dis rng).1.Q.getD d false = true ∧
      (a.update dis rng).1.c.getD d 0 ≤ 0) ∧
    (∀ (a : Agent) (d : ℕ) (l : List (Disease × Rng)),
      a.Q.getD d false = true → a.c.getD d 0 ≤ 0 →
      (updateSeq a l).Q.getD d false = true ∧
      (updateSeq a l).c.getD d 0 ≤ 0) ∧
    (∀ (a : Agent) (dis2 : Disease) (e : ℕ),
      a.D.findIdx? (fun x => x == dis2.id) = some e →
      1 ≤ a.c.getD e 0 → a.c.getD e 0 ≤ dis2.I →
      a.Q.any (fun b => b) = true →
      (a.state dis2).2 = (false, false, true, false)) := by
  refine ⟨fun a dis rng d hd hQI hq hc1 => ?_, fun a d l => ?_,
    fun a dis2 e he h1 h2 hany => state_qtuple a dis2 e he h1 h2 hany⟩
  · have hidx := index_found a dis d hd
    have hdc : d < a.c.length := lt_length_of_getD_ne a.c d 0 (by omega)
    simp only [Agent.update, hidx]
    rw [if_neg (by omega), if_pos hc1]
    split
    · exact ⟨hq, by rw [getD_set_self a.c d (-1) 0 hdc]; omega⟩
    · exact ⟨hq, by rw [getD_set_self a.c d 0 0 hdc]⟩
  · induction l generalizing a with
    | nil => exact fun hq hc => ⟨hq, hc⟩
    | cons p rest ih =>
        intro hq hc
        have h1 := update_preserves_inactive a d p.1 p.2 hq hc
        exact ih _ h1.1 h1.2

/-- Witness for C10: with `Q = I = 7`, the quarantined agent on counter
1 keeps its flag after the update; ten further arbitrary updates keep it
set; and the agent is classified Quarantined for the other disease it
tracks with counter 4. -/
theorem C10_witness :
    ((C10agent.update C10dis rng1).1.Q.getD 0 false = true ∧
      (C10agent.update C10dis rng1).1.c.getD 0 0 ≤ 0) ∧
    (updateSeq (C10agent.update C10dis rng1).1
        [(C10dis, rng0), (C6disB, rng1), (C10dis, rng0)]).Q.getD 0 false = true ∧
    (C10agent.state C6disB).2 = (false, false, true, false) := by
  have h1 := C10_flag_stuck.1 C10agent C10dis rng1 0 (by decide) (by decide)
    (by decide) (by decide)
  refine ⟨h1, ?_, ?_⟩
  · exact (C10_flag_stuck.2.1 (C10agent.update C10dis rng1).1 0
      [(C10dis, rng0), (C6disB, rng1), (C10dis, rng0)] h1.1 h1.2).1
  · exact C10_flag_stuck.2.2 C10agent C6disB 1 (by decide) (by decide) (by decide)
      (by decide)

/-! ### Run-level invariants -/

lemma updateAgents_length (dis : Disease) (ags : List Agent) :
    ∀ rng, (updateAgents dis ags rng).1.length = ags.length := by
  induction ags with
  | nil => intro rng; rfl
  | cons ag rest ih =>
      intro rng
      simp only [updateAgents, List.length_cons]
      rw [ih]

lemma stateAgents_length_fst (dis : Disease) (ags : List Agent) :
    (stateAgents dis ags).1.length = ags.length := by
  induction ags with
  | nil => rfl
  | cons ag rest ih =>
      simp only [stateAgents, List.length_cons]
      rw [ih]

lemma stateAgents_length_snd (dis : Disease) (ags : List Agent) :
    (stateAgents dis ags).2.length = ags.length := by
  induction ags with
  | nil => rfl
  | cons ag rest ih =>
      simp only [stateAgents, List.length_cons]
      rw [ih]

lemma stateAgents_shapes (dis : Disease) (ags : List Agent) :
    ∀ x ∈ (stateAgents dis ags).2,
      x = ((false, false, false, false) : S4) ∨ x = (false, false, false, true) ∨
      x = (true, false, false, false) ∨ x = (false, false, true, false) ∨
      x = (false, true, false, false) := by
  induction ags with
  | nil => intro x hx; simp [stateAgents] at hx
  | cons ag rest ih =>
      intro x hx
      simp only [stateAgents, List.mem_cons] at hx
      rcases hx with hx | hx
      · rw [hx]; exact state_shape ag dis
      · exact ih x hx

lemma stateAgents_accounting (dis : Disease) (ags : List Agent) :
    cntE (stateAgents dis ags).2 + cntIvQ (stateAgents dis ags).2 +
      cntS (stateAgents dis ags).2 + cntR (stateAgents dis ags).2 = ags.length := by
  rw [← stateAgents_length_snd dis ags]
  exact shaped_accounting _ (stateAgents_shapes dis ags)

lemma transmitFrom_length (dis : Disease) (m : ℚ) (st : List S4) (j : ℕ)
    (ks : List ℕ) : ∀ ags rng, (transmitFrom dis m st j ks ags rng).1.length = ags.length := by
  induction ks with
  | nil => intro ags rng; rfl
  | cons idx rest ih =>
      intro ags rng
      simp only [transmitFrom]
      split
      · split
        · rw [ih]
          exact List.length_set ags idx _
        · exact ih ags _
      · exact ih ags rng

lemma transmissionRound_length (dis : Disease) (m : ℚ) (st : List S4)
    (js : List ℕ) : ∀ ags rng,
      (transmissionRound dis m st js ags rng).1.length = ags.length := by
  induction js with
  | nil => intro ags rng; rfl
  | cons j rest ih =>
      intro ags rng
      simp only [transmissionRound]
      split
      · rw [ih, transmitFrom_length]
      · exact ih ags rng

lemma vaccinateAgents_length (dis : Disease) (coverage vv : ℚ) (ags : List Agent) :
    ∀ rng, (vaccinateAgents dis coverage vv ags rng).1.length = ags.length := by
  induction ags with
  | nil => intro rng; rfl
  | cons ag rest ih =>
      intro rng
      simp only [vaccinateAgents, List.length_cons]
      rw [ih]

lemma seed_fold_length (dis : Disease) (idxs : List ℕ) :
    ∀ ags : List Agent,
      (idxs.foldl (fun l i => l.set i (seedAgent (l.getD i dummyAgent) dis)) ags).length
        = ags.length := by
  induction idxs with
  | nil => intro ags; rfl
  | cons idx rest ih =>
      intro ags
      simp only [List.foldl_cons]
      rw [ih]
      exact List.length_set ags idx _

lemma applyEvent_fields (sim : Simulation) (ev : Event) (rng : Rng) :
    (sim.applyEvent ev rng).1.events = sim.events ∧
    (sim.applyEvent ev rng).1.steps = sim.steps ∧
    (sim.applyEvent ev rng).1.m = sim.m ∧
    (sim.applyEvent ev rng).1.history = sim.history ∧
    (sim.applyEvent ev rng).1.agents.length = sim.agents.length := by
  cases ev with
  | quarantine day disId qq => exact ⟨rfl, rfl, rfl, rfl, rfl⟩
  | vaccinate day disId coverage vv =>
      simp only [Simulation.applyEvent]
      cases sim.D.find? (fun ds => ds.id == disId) with
      | none => simp
      | some ds => simp [vaccinateAgents_length]
  | seed day disId n =>
      simp only [Simulation.applyEvent]
      cases sim.D.find? (fun ds => ds.id == disId) with
      | none => simp
      | some ds =>
          simp only [Simulation.seedDis]
          exact ⟨trivial, trivial, trivial, trivial, seed_fold_length ds _ _⟩

lemma applyEvents_fields (i : ℕ) (evs : List Event) :
    ∀ (sim : Simulation) (rng : Rng),
      (Simulation.applyEvents sim i evs rng).1.events = sim.events ∧
      (Simulation.applyEvents sim i evs rng).1.steps = sim.steps ∧
      (Simulation.applyEvents sim i evs rng).1.m = sim.m ∧
      (Simulation.applyEvents sim i evs rng).1.history = sim.history ∧
      (Simulation.applyEvents sim i evs rng).1.agents.length = sim.agents.length := by
  induction evs with
  | nil => intro sim rng; exact ⟨rfl, rfl, rfl, rfl, rfl⟩
  | cons ev rest ih =>
      intro sim rng
      simp only [Simulation.applyEvents]
      split
      · have h1 := applyEvent_fields sim ev rng
        have h2 := ih (sim.applyEvent ev rng).1 (sim.applyEvent ev rng).2
        exact ⟨h2.1.trans h1.1, h2.2.1.trans h1.2.1, h2.2.2.1.trans h1.2.2.1,
          h2.2.2.2.1.trans h1.2.2.2.1, h2.2.2.2.2.trans h1.2.2.2.2⟩
      · exact ih sim rng

lemma diseaseLoop_spec (m : ℚ) (ds : List Disease) :
    ∀ (ags : List Agent) (rng : Rng),
      (diseaseLoop m ds ags rng).1.length = ags.length ∧
      (∀ t ∈ (diseaseLoop m ds ags rng).2.2.1, goodTuple ags.length t) ∧
      ((diseaseLoop m ds ags rng).2.2.2 = false ↔
        stopEntry (diseaseLoop m ds ags rng).2.2.1) := by
  induction ds with
  | nil =>
      intro ags rng
      refine ⟨rfl, by intro t ht; simp [diseaseLoop] at ht, ?_⟩
      simp [diseaseLoop, stopEntry]
  | cons dis rest ih =>
      intro ags rng
      have hul := updateAgents_length dis ags rng
      simp only [diseaseLoop]
      set ur := updateAgents dis ags rng with hur
      set sr := stateAgents dis ur.1 with hsr
      set tr := transmissionRound dis m sr.2 (List.range sr.1.length) sr.1 ur.2 with htr
      set dl := diseaseLoop m rest tr.1 tr.2 with hdl
      have hsl : sr.1.length = ags.length := by
        rw [hsr, stateAgents_length_fst]
        exact hul
      have hstl : sr.2.length = ags.length := by
        rw [hsr, stateAgents_length_snd]
        exact hul
      have htl : tr.1.length = ags.length := by
        rw [htr, transmissionRound_length]
        exact hsl
      obtain ⟨ih1, ih2, ih3⟩ := ih tr.1 tr.2
      rw [← hdl] at ih1 ih2 ih3
      refine ⟨?_, ?_, ?_⟩
      · dsimp only
        rw [ih1, htl]
      · dsimp only
        intro t ht
        simp only [List.mem_cons] at ht
        rcases ht with ht | ht
        · subst ht
          have hacc := stateAgents_accounting dis ur.1
          rw [← hsr, hul] at hacc
          refine ⟨cntQ_le_cntIvQ sr.2, ?_⟩
          simp only [stateCounts]
          omega
        · have := ih2 t ht
          rw [htl] at this
          exact this
      · dsimp only
        rw [Bool.or_eq_false_iff]
        constructor
        · rintro ⟨h1, h2⟩
          intro t ht
          simp only [List.mem_cons] at ht
          rcases ht with ht | ht
          · subst ht
            have hz : sumFirst3 sr.2 = 0 := by
              simp only [decide_eq_false_iff_not, Nat.not_lt, Nat.le_zero] at h1
              exact h1
            have := (sumFirst3_eq_zero_iff sr.2).mp hz
            simp only [stateCounts]
            omega
          · exact (ih3.mp h2) t ht
        · intro hstop
          have h1 := hstop _ (List.mem_cons_self _ _)
          have h2 : stopEntry dl.2.2.1 :=
            fun t ht => hstop t (List.mem_cons_of_mem _ ht)
          have hz : sumFirst3 sr.2 = 0 := by
            apply (sumFirst3_eq_zero_iff sr.2).mpr
            simp only [stateCounts] at h1
            omega
          refine ⟨by simp [hz], ih3.mpr h2⟩

lemma events_all_iff (evs : List Event) (i : ℕ) :
    evs.all (fun ev => decide (ev.day ≤ i)) = true ↔ ∀ ev ∈ evs, ev.day ≤ i := by
  rw [List.all_eq_true]
  simp

lemma runDay_spec (sim : Simulation) (i : ℕ) (rng : Rng) :
    (sim.runDay i rng).1.events = sim.events ∧
    (sim.runDay i rng).1.steps = sim.steps ∧
    (sim.runDay i rng).1.agents.length = sim.agents.length ∧
    ∃ entry, (sim.runDay i rng).1.history = sim.history ++ [entry] ∧
      (∀ t ∈ entry, goodTuple sim.agents.length t) ∧
      ((sim.runDay i rng).2.2 = false ↔ stopEntry entry) := by
  obtain ⟨he, hs, hm, hh, ha⟩ := applyEvents_fields i sim.events sim rng
  simp only [Simulation.runDay]
  set er := Simulation.applyEvents sim i sim.events rng with her
  set dl := diseaseLoop er.1.m er.1.D er.1.agents er.2 with hdl
  obtain ⟨d1, d2, d3⟩ := diseaseLoop_spec er.1.m er.1.D er.1.agents er.2
  rw [← hdl] at d1 d2 d3
  refine ⟨he, hs, ?_, dl.2.2.1, ?_, ?_, ?_⟩
  · dsimp only
    rw [d1, ha]
  · dsimp only
    rw [hh]
  · intro t ht
    have := d2 t ht
    rw [ha] at this
    exact this
  · exact d3

lemma runAux_spec (fuel : ℕ) : ∀ (i : ℕ) (sim : Simulation) (rng : Rng),
    ∃ rest,
      (Simulation.runAux fuel i sim rng).history = sim.history ++ rest ∧
      (Simulation.runAux fuel i sim rng).events = sim.events ∧
      (Simulation.runAux fuel i sim rng).steps = sim.steps ∧
      (∀ entry ∈ rest, ∀ t ∈ entry, goodTuple sim.agents.length t) ∧
      rest.length ≤ fuel ∧
      (rest.length < fuel ↔ ∃ j, j + 1 < fuel ∧ j < rest.length ∧
        stopAt sim.events (i + j) (rest.getD j [])) := by
  induction fuel with
  | zero =>
      intro i sim rng
      refine ⟨[], by simp [Simulation.runAux], rfl, rfl, by simp, Nat.le_refl 0, ?_⟩
      constructor
      · intro h
        exact absurd h (by omega)
      · rintro ⟨j, hj, _, _⟩
        exact absurd hj (by omega)
  | succ fuel ih =>
      intro i sim rng
      obtain ⟨hev, hst, hag, entry, hhist, hgood, hflag⟩ := runDay_spec sim i rng
      simp only [Simulation.runAux]
      by_cases hbr : (sim.runDay i rng).2.2 = false ∧
          ((sim.runDay i rng).1.events.all (fun ev => decide (ev.day ≤ i))) = true
      · rw [if_pos hbr]
        have hstop : stopAt sim.events i entry := by
          refine ⟨hflag.mp hbr.1, ?_⟩
          have := (events_all_iff (sim.runDay i rng).1.events i).mp hbr.2
          rw [hev] at this
          exact this
        refine ⟨[entry], hhist, hev, hst, ?_, by simp, ?_⟩
        · intro e he t ht
          simp only [List.mem_singleton] at he
          subst he
          exact hgood t ht
        · constructor
          · intro h1
            have h1b : 1 < fuel + 1 := by simpa using h1
            exact ⟨0, by omega, by simp, by simpa using hstop⟩
          · rintro ⟨j, hj1, hj2, _⟩
            simp only [List.length_cons, List.length_nil] at hj2 ⊢
            omega
      · rw [if_neg hbr]
        obtain ⟨rest2, ih_hist, ih_ev, ih_st, ih_good, ih_len, ih_iff⟩ :=
          ih (i + 1) (sim.runDay i rng).1 (sim.runDay i rng).2.1
        rw [hev] at ih_ev ih_iff
        rw [hag] at ih_good
        have hnstop : ¬ stopAt sim.events i entry := by
          intro hstop
          apply hbr
          refine ⟨hflag.mpr hstop.1, ?_⟩
          rw [hev]
          exact (events_all_iff sim.events i).mpr hstop.2
        refine ⟨entry :: rest2, ?_, ih_ev, ih_st.trans hst, ?_, by simp; omega, ?_⟩
        · rw [ih_hist, hhist, List.append_assoc, List.singleton_append]
        · intro e he t ht
          simp only [List.mem_cons] at he
          rcases he with he | he
          · subst he
            exact hgood t ht
          · exact ih_good e he t ht
        · simp only [List.length_cons]
          constructor
          · intro h1
            obtain ⟨j, hj1, hj2, hj3⟩ := ih_iff.mp (by omega)
            refine ⟨j + 1, by omega, by omega, ?_⟩
            rw [List.getD_cons_succ]
            have : i + (j + 1) = i + 1 + j := by omega
            rw [this]
            exact hj3
          · rintro ⟨j, hj1, hj2, hj3⟩
            cases j with
            | zero =>
                rw [List.getD_cons_zero] at hj3
                exact absurd (by simpa using hj3) hnstop
            | succ j2 =>
                rw [List.getD_cons_succ] at hj3
                have heq : i + (j2 + 1) = i + 1 + j2 := by omega
                rw [heq] at hj3
                have := ih_iff.mpr ⟨j2, by omega, by omega, hj3⟩
                omega

/-! ### Claim C1: what the four recorded counts add up to -/

/-- Claim C1 (amended): for every day and disease, the per-agent truth
vectors are one-hot (or all-false for Recovered), so
`exposedCount + infectiousOrQuarantinedCount + susceptibleCount +
recoveredCount` equals the population size, with
`quarantinedCount ≤ infectiousOrQuarantinedCount` (quarantined agents
appear in both recorded columns and recovered agents in none); hence
every tuple recorded in a run's history satisfies
`quarantinedCount ≤ infectiousOrQuarantinedCount` and
`exposedCount + infectiousOrQuarantinedCount + susceptibleCount ≤
population`, but the four recorded counts themselves sum to
`population + quarantinedCount - recoveredCount`, not to the
population. -/
theorem C1_history_accounting :
    (∀ (dis : Disease) (ags : List Agent),
      cntQ (stateAgents dis ags).2 ≤ cntIvQ (stateAgents dis ags).2 ∧
      cntE (stateAgents dis ags).2 + cntIvQ (stateAgents dis ags).2 +
        cntS (stateAgents dis ags).2 + cntR (stateAgents dis ags).2 = ags.length) ∧
    (∀ (sim : Simulation) (rng : Rng), sim.history = [] →
      ∀ entry ∈ (sim.run rng).history, ∀ t ∈ entry,
        t.2.2.1 ≤ t.2.1 ∧ t.1 + t.2.1 + t.2.2.2 ≤ sim.agents.length) := by
  refine ⟨fun dis ags => ⟨cntQ_le_cntIvQ _, stateAgents_accounting dis ags⟩,
    fun sim rng h0 entry hentry t ht => ?_⟩
  obtain ⟨rest, hhist, _, _, hgood, _, _⟩ := runAux_spec sim.steps 0 sim rng
  rw [Simulation.run] at hentry
  rw [hhist, h0, List.nil_append] at hentry
  exact hgood entry hentry t ht

/-- Witness for C1: the day-1 entry of the one-agent run `C1sim`
(the recovered day, tuple `(0,0,0,0)`) satisfies the amended bounds. -/
theorem C1_witness :
    ((0, 0, 0, 0) : ℕ × ℕ × ℕ × ℕ).2.2.1 ≤ ((0, 0, 0, 0) : ℕ × ℕ × ℕ × ℕ).2.1 ∧
    ((0, 0, 0, 0) : ℕ × ℕ × ℕ × ℕ).1 + ((0, 0, 0, 0) : ℕ × ℕ × ℕ × ℕ).2.1 +
      ((0, 0, 0, 0) : ℕ × ℕ × ℕ × ℕ).2.2.2 ≤ C1sim.agents.length :=
  C1_history_accounting.2 C1sim rng0 rfl [(0, 0, 0, 0)] (by decide)
    (0, 0, 0, 0) (by decide)

/-- Counterexample to C1 as stated: on day 1 of `C1sim` the lone agent
has recovered; the recorded tuple is `(0,0,0,0)`, whose four counts sum
to 0, not to the population size 1. -/
theorem C1_counterexample :
    C1sim.agents.length = 1 ∧
    ((C1sim.run rng0).history.getD 1 []).getD 0 (7, 7, 7, 7) = (0, 0, 0, 0) ∧
    0 + 0 + 0 + 0 ≠ C1sim.agents.length := by
  refine ⟨by decide, by decide, by decide⟩

/-! ### Claim C7: early termination -/

/-- Claim C7 (amended): a run over an initially empty history terminates
strictly before the configured maximum number of days exactly when the
stop condition — no agent Exposed, Infectious or Quarantined for any
registered disease (every recorded tuple of the day has
`E + IvQ = 0`) and no scheduled event with a strictly later trigger
day — holds on some recorded day *other than the final scheduled day*
(`i + 1 < steps`); when the stop condition first holds on day
`steps - 1` the loop breaks but the maximum day count is already
exhausted, so termination is not strictly early. -/
theorem C7_early_termination (sim : Simulation) (rng : Rng)
    (h0 : sim.history = []) :
    ((sim.run rng).history.length < sim.steps ↔
      ∃ i, i + 1 < sim.steps ∧ i < (sim.run rng).history.length ∧
        stopAt sim.events i ((sim.run rng).history.getD i [])) := by
  obtain ⟨rest, hhist, hev, hst, hgood, hlen, hiff⟩ := runAux_spec sim.steps 0 sim rng
  rw [Simulation.run, hhist, h0, List.nil_append]
  simpa using hiff

/-- Witness for C7: the one-agent scenario `C7wsim` (maximum 4 days,
disease dies out on day 1 with no events) terminates after 2 recorded
days, strictly before the maximum, and the theorem recovers the
stopping day. -/
theorem C7_witness :
    ∃ i, i + 1 < C7wsim.steps ∧ i < (C7wsim.run rng0).history.length ∧
      stopAt C7wsim.events i ((C7wsim.run rng0).history.getD i []) :=
  (C7_early_termination C7wsim rng0 rfl).mp (by decide)

/-- Counterexample to C7 as stated: in `C7csim` (maximum 1 day, one
susceptible agent, no events) the stop condition holds on day 0, yet
the run records exactly 1 day, which is not strictly before the
configured maximum of 1: the unqualified equivalence of the claim
fails at the boundary. -/
theorem C7_counterexample :
    ¬(((C7csim.run rng0).history.length < C7csim.steps) ↔
      ∃ i, i < (C7csim.run rng0).history.length ∧
        stopAt C7csim.events i ((C7csim.run rng0).history.getD i [])) := by
  intro h
  have hr : ∃ i, i < (C7csim.run rng0).history.length ∧
      stopAt C7csim.events i ((C7csim.run rng0).history.getD i []) :=
    ⟨0, by decide, by decide⟩
  exact absurd (h.mpr hr) (by decide)
